import Mathlib

/-
  Verification of the OpenCL vector-addition pipeline in `src/task.cpp`.

  The program is shallowly embedded: the OpenCL runtime is modelled by an
  environment `Env` that records, for each API call the program makes, the
  outcome the runtime would return (platform/device availability, success or
  failure of context/queue/program/kernel creation, buffer allocation,
  transfers, argument binding, enqueue), together with the stream of values
  produced by `rand()`.  `runMainSZ` then mirrors `main` (task.cpp:35-84) and
  the helper functions it calls, in the order the source calls them, recording
  a trace of the device-facing operations and the console output.
-/

/-- A console token printed by `print` (task.cpp:96-116): either one array
element or the ellipsis marker `" ..... "` printed between head and tail. -/
inductive Tok
  | num (v : Int)
  | ellipsis
  deriving DecidableEq, Repr

/-- Embedding of `print(int *A, int size)` (task.cpp:96-116) with `PRINT == 1`:
for `size > 15` it prints elements `0..4`, the ellipsis marker, then elements
`size-5..size-1`; otherwise it prints all `size` elements. -/
def printTokens (A : Nat → Int) (size : Int) : List Tok :=
  if 15 < size then
    ((List.range 5).map fun i => Tok.num (A i)) ++ [Tok.ellipsis] ++
      ((List.range 5).map fun i => Tok.num (A ((size - 5).toNat + i)))
  else
    (List.range size.toNat).map fun i => Tok.num (A i)

/-- The diagnostics the program can emit before calling `exit(1)`; each
constructor corresponds to one `perror`/`printf` site in task.cpp. -/
inductive Diag
  | platformNotFound      -- task.cpp:246 "Couldn...t identify a platform"
  | deviceNotFound        -- task.cpp:257 "Couldn...t access any devices"
  | contextFailed         -- task.cpp:167 "Couldn...t create a context"
  | programFileNotFound   -- task.cpp:200 "Couldn...t find the program file"
  | programCreateFailed   -- task.cpp:216 "Couldn...t create the program"
  | queueFailed           -- task.cpp:177 "Couldn...t create a command queue"
  | kernelFailed          -- task.cpp:184 "Couldn...t create a kernel"
  | argBindFailed         -- task.cpp:142 "Couldn...t create a kernel argument"
  deriving DecidableEq, Repr

/-- The class of device `create_device` ends up acquiring. -/
inductive DevClass
  | gpu
  | cpu
  deriving DecidableEq, Repr

/-- One platform as the host sees it: whether a GPU-class device and whether a
CPU-class device can be acquired from it. -/
structure Platform where
  hasGPU : Bool
  hasCPU : Bool
  deriving DecidableEq, Repr

/-- Embedding of `create_device()` (task.cpp:238-262): `clGetPlatformIDs(1, ...)`
yields the first available platform (an error if there is none); then a
GPU-class device is requested from that platform; on `CL_DEVICE_NOT_FOUND` a
CPU-class device is requested instead; if that also fails the program exits
with a diagnostic. -/
def create_device (platforms : List Platform) : Except Diag DevClass :=
  match platforms with
  | [] => Except.error Diag.platformNotFound
  | p :: _ =>
    if p.hasGPU then Except.ok DevClass.gpu
    else if p.hasCPU then Except.ok DevClass.cpu
    else Except.error Diag.deviceNotFound

/-- `true` exactly when `create_device` succeeds. -/
def createDeviceOk (platforms : List Platform) : Bool :=
  match create_device platforms with
  | Except.ok _ => true
  | Except.error _ => false

/-- The device-facing operations of the pipeline, in the order the host issues
them; used to state ordering (temporal) properties of one run. -/
inductive Ev
  | createContext
  | buildProgram
  | createQueue
  | createKernel
  | allocBuf (i : Nat)
  | uploadBlocking (i : Nat)
  | setArgs
  | timerStart
  | enqueueKernel
  | waitEvent
  | downloadBlocking
  | printOut
  | timerStop
  | freeMemory
  deriving DecidableEq, Repr

/-- One item of console output: an array preview from `print`, a diagnostic, a
compiler build log (task.cpp:229), or the elapsed-time line (task.cpp:80). -/
inductive ConsoleItem
  | preview (toks : List Tok)
  | diag (d : Diag)
  | buildLog (s : String)
  | elapsed
  deriving DecidableEq, Repr

/-- `true` on the console items that report a failure (a `perror`/`printf`
diagnostic or the compiler build log printed on build failure). -/
def isDiag : ConsoleItem → Bool
  | ConsoleItem.diag _ => true
  | ConsoleItem.buildLog _ => true
  | _ => false

/-- Whether any failure diagnostic was printed during a run. -/
def hasDiagnostic (con : List ConsoleItem) : Bool :=
  con.any isDiag

/-- The observable outcome of one run of the program: process exit code, the
trace of device-facing operations, the console output, and the final contents
of the host array `v_out`. -/
structure RunResult where
  exitCode : Nat
  trace : List Ev
  console : List ConsoleItem
  vout : Nat → Int

/-- Two...s-complement wrap of an integer to the 32-bit `int` range, modelling
C `int` arithmetic. -/
def wrapInt32 (x : Int) : Int :=
  (x + 2147483648) % 4294967296 - 2147483648

/-- Modelled from the spec: the kernel source `./vector_ops.txt` is not among
the repository sources (only `task.cpp` is), so the device kernel named
`vector_add_ocl` is taken from the spec, which fixes its signature as
(element count scalar, input buffer A, input buffer B, output buffer) and its
behaviour as elementwise addition: each invocation `i` of the 1-D work domain
computes the single output element `out[i] = A[i] + B[i]` in `int`
arithmetic. -/
def vector_add_ocl (n : Int) (a b : Nat → Int) (i : Nat) : Int :=
  wrapInt32 (a i + b i)

/-- `(size_t)SZ` on a 64-bit host: conversion of the C `int` value to the
unsigned 64-bit type, as used for the global work size (task.cpp:47). -/
def sizeT (SZ : Int) : Nat :=
  (SZ % 18446744073709551616).toNat

/-- `SZ * sizeof(int)` as computed in C: `SZ` converted to `size_t`, then
multiplied by 4 modulo 2^64 (task.cpp:70,150-156). -/
def bytesOfSZ (SZ : Int) : Nat :=
  (sizeT SZ * 4) % 18446744073709551616

/-- The number of whole `int` elements covered by an `SZ * sizeof(int)`-byte
transfer. -/
def elemsOfSZ (SZ : Int) : Nat :=
  bytesOfSZ SZ / 4

/-- Embedding of `init(int *&A, int size)` (task.cpp:87-93): element `i` of the
freshly allocated array receives `rand() % 100`; `off` is how many `rand()`
calls happened before this `init` call; indices outside the array read as 0. -/
def hostInit (rand : Nat → Nat) (off sz : Nat) : Nat → Int :=
  fun i => if i < sz then (((rand (off + i)) % 100 : Nat) : Int) else 0

/-- The modelled OpenCL runtime: the outcome of each API call the program
makes, plus the `rand()` stream.  `argCode0..argCode3` are the return codes of
the four `clSetKernelArg` calls (0 on success, a negative error code on
failure, as in the OpenCL API); `buildErr = some log` means `clBuildProgram`
fails with build log `log`. -/
structure Env where
  platforms : List Platform
  contextOk : Bool
  sourceText : Option String
  createProgramOk : Bool
  buildErr : Option String
  queueOk : Bool
  kernelOk : Bool
  allocOk1 : Bool
  allocOk2 : Bool
  allocOk3 : Bool
  writeOk1 : Bool
  writeOk2 : Bool
  argCode0 : Int
  argCode1 : Int
  argCode2 : Int
  argCode3 : Int
  enqueueOk : Bool
  readOk : Bool
  rand : Nat → Nat

/-- Embedding of the error accumulation in `copy_kernel_args` (task.cpp:136-139):
`err = clSetKernelArg(...); err |= clSetKernelArg(...); ...` — the bitwise OR
of the four return codes, on two...s-complement integers. -/
def copy_kernel_args_err (env : Env) : Int :=
  Int.lor (Int.lor (Int.lor env.argCode0 env.argCode1) env.argCode2) env.argCode3

/-- Embedding of `main` with the element count already parsed into `SZ`
(task.cpp:35-84), inlining the helpers in the order `main` calls them:
`init` three times (:42-44), `print(v1)` and `print(v2)` (:50-51),
`setup_openCL_device_context_queue_kernel` (:160-188) which itself calls
`create_device` and `build_program` (:191-235), then `setup_kernel_memory`
(:149-157), `copy_kernel_args` (:135-146), the timed enqueue/wait (:63-67),
the blocking read-back (:70), `print(v_out)` (:73), the timer stop (:76-80)
and `free_memory` (:119-132).  Every `exit(1)` site returns immediately with
exit code 1 and the console output produced so far.  The calls in
`setup_kernel_memory` pass no error out-parameter and their return values are
ignored by the source, so allocation and transfer outcomes produce no branch;
likewise the `clEnqueueNDRangeKernel` and `clEnqueueReadBuffer` return values
are ignored. -/
def runMainSZ (SZ : Int) (env : Env) : RunResult :=
  let sz : Nat := SZ.toNat
  let v1 := hostInit env.rand 0 sz
  let v2 := hostInit env.rand sz sz
  let v0 := hostInit env.rand (2 * sz) sz
  let con0 : List ConsoleItem :=
    [ConsoleItem.preview (printTokens v1 SZ), ConsoleItem.preview (printTokens v2 SZ)]
  match create_device env.platforms with
  | Except.error d => ⟨1, [], con0 ++ [ConsoleItem.diag d], v0⟩
  | Except.ok _ =>
    if env.contextOk = false then
      ⟨1, [], con0 ++ [ConsoleItem.diag Diag.contextFailed], v0⟩
    else
      match env.sourceText with
      | none =>
        ⟨1, [Ev.createContext], con0 ++ [ConsoleItem.diag Diag.programFileNotFound], v0⟩
      | some _ =>
        if env.createProgramOk = false then
          ⟨1, [Ev.createContext], con0 ++ [ConsoleItem.diag Diag.programCreateFailed], v0⟩
        else
          match env.buildErr with
          | some log =>
            ⟨1, [Ev.createContext], con0 ++ [ConsoleItem.buildLog log], v0⟩
          | none =>
            if env.queueOk = false then
              ⟨1, [Ev.createContext, Ev.buildProgram],
                con0 ++ [ConsoleItem.diag Diag.queueFailed], v0⟩
            else
              if env.kernelOk = false then
                ⟨1, [Ev.createContext, Ev.buildProgram, Ev.createQueue],
                  con0 ++ [ConsoleItem.diag Diag.kernelFailed], v0⟩
              else
                let tr1 : List Ev :=
                  [Ev.createContext, Ev.buildProgram, Ev.createQueue, Ev.createKernel,
                    Ev.allocBuf 1, Ev.allocBuf 2, Ev.allocBuf 3,
                    Ev.uploadBlocking 1, Ev.uploadBlocking 2]
                let dA : Nat → Int :=
                  if env.allocOk1 && env.writeOk1 then
                    (fun i => if i < elemsOfSZ SZ then v1 i else 0)
                  else (fun _ => 0)
                let dB : Nat → Int :=
                  if env.allocOk2 && env.writeOk2 then
                    (fun i => if i < elemsOfSZ SZ then v2 i else 0)
                  else (fun _ => 0)
                if copy_kernel_args_err env < 0 then
                  ⟨1, tr1, con0 ++ [ConsoleItem.diag Diag.argBindFailed], v0⟩
                else
                  let dOut : Nat → Int :=
                    if env.enqueueOk && env.allocOk3 then
                      (fun i => if i < sizeT SZ then vector_add_ocl SZ dA dB i else 0)
                    else (fun _ => 0)
                  let vres : Nat → Int :=
                    if env.readOk then
                      (fun i => if i < elemsOfSZ SZ then dOut i else v0 i)
                    else v0
                  ⟨0,
                    tr1 ++ [Ev.setArgs, Ev.timerStart, Ev.enqueueKernel, Ev.waitEvent,
                      Ev.downloadBlocking, Ev.printOut, Ev.timerStop, Ev.freeMemory],
                    con0 ++ [ConsoleItem.preview (printTokens vres SZ), ConsoleItem.elapsed],
                    vres⟩

/-- Digit-consuming loop of C `atoi`: accumulates decimal digits, stopping at
the first non-digit. -/
def atoiDigits : List Char → Nat → Nat
  | [], acc => acc
  | c :: cs, acc =>
    if c.isDigit then atoiDigits cs (acc * 10 + (c.toNat - 48)) else acc

/-- C `isspace` on the default locale. -/
def isSpaceC (c : Char) : Bool :=
  c = ' ' || c = '\t' || c = '\n' || c = '\x0b' || c = '\x0c' || c = '\r'

/-- C `atoi` after the leading whitespace has been skipped: an optional sign
followed by zero or more digits; no digits yields 0. -/
def atoiCore : List Char → Int
  | [] => 0
  | c :: cs =>
    if c = '-' then -(atoiDigits cs 0 : Int)
    else if c = '+' then (atoiDigits cs 0 : Int)
    else (atoiDigits (c :: cs) 0 : Int)

/-- Embedding of C `atoi` as used at task.cpp:38: skip leading whitespace,
read an optional sign and then decimal digits, ignoring everything from the
first non-digit on; a string with no leading number yields 0. -/
def atoi (s : String) : Int :=
  atoiCore (s.toList.dropWhile isSpaceC)

/-- The element count `main` uses (task.cpp:37-39): `atoi(argv[1])` when an
argument is supplied, else the default `SZ = 100000000` (task.cpp:9). -/
def mainSZ (argv : List String) : Int :=
  match argv with
  | _ :: a :: _ => atoi a
  | _ => 100000000

/-- One run of the whole program on command line `argv`. -/
def runMain (argv : List String) (env : Env) : RunResult :=
  runMainSZ (mainSZ argv) env

/-- The trace of device-facing operations on the success path of the
pipeline. -/
def successTrace : List Ev :=
  [Ev.createContext, Ev.buildProgram, Ev.createQueue, Ev.createKernel,
    Ev.allocBuf 1, Ev.allocBuf 2, Ev.allocBuf 3,
    Ev.uploadBlocking 1, Ev.uploadBlocking 2,
    Ev.setArgs, Ev.timerStart, Ev.enqueueKernel, Ev.waitEvent,
    Ev.downloadBlocking, Ev.printOut, Ev.timerStop, Ev.freeMemory]

/-- The run outcome on the success path with a fully functional runtime:
exit code 0, the success trace, the three previews plus the elapsed-time
line, and `v_out` holding the downloaded kernel results. -/
def successResult (SZ : Int) (env : Env) : RunResult :=
  let sz : Nat := SZ.toNat
  let v1 := hostInit env.rand 0 sz
  let v2 := hostInit env.rand sz sz
  let v0 := hostInit env.rand (2 * sz) sz
  let dA : Nat → Int := fun i => if i < elemsOfSZ SZ then v1 i else 0
  let dB : Nat → Int := fun i => if i < elemsOfSZ SZ then v2 i else 0
  let dOut : Nat → Int := fun i => if i < sizeT SZ then vector_add_ocl SZ dA dB i else 0
  let vres : Nat → Int := fun i => if i < elemsOfSZ SZ then dOut i else v0 i
  ⟨0, successTrace,
    [ConsoleItem.preview (printTokens v1 SZ), ConsoleItem.preview (printTokens v2 SZ),
      ConsoleItem.preview (printTokens vres SZ), ConsoleItem.elapsed],
    vres⟩

/-- The stages whose outcome the source actually checks all succeed: device
discovery, context creation, kernel-source reading, program creation, program
build, queue creation, kernel creation, and the four argument bindings.
Allocation, transfer, enqueue and read-back outcomes are deliberately absent:
the source inspects none of them. -/
def CheckedOk (env : Env) : Prop :=
  createDeviceOk env.platforms = true ∧ env.contextOk = true ∧
    env.sourceText.isSome = true ∧ env.createProgramOk = true ∧
    env.buildErr = none ∧ env.queueOk = true ∧ env.kernelOk = true ∧
    0 ≤ copy_kernel_args_err env

/-- A fully functional modelled runtime: every checked stage succeeds and the
unchecked operations (allocations, transfers, enqueue, read-back) also
succeed. -/
def GoodEnv (env : Env) : Prop :=
  CheckedOk env ∧ env.allocOk1 = true ∧ env.allocOk2 = true ∧ env.allocOk3 = true ∧
    env.writeOk1 = true ∧ env.writeOk2 = true ∧ env.enqueueOk = true ∧ env.readOk = true

instance (env : Env) : Decidable (CheckedOk env) := by
  unfold CheckedOk
  infer_instance

instance (env : Env) : Decidable (GoodEnv env) := by
  unfold GoodEnv
  infer_instance

/-- The events that happen between the timer start (task.cpp:63) and the timer
stop (task.cpp:76) in a trace. -/
def measuredSpan (tr : List Ev) : List Ev :=
  ((tr.dropWhile fun e => !decide (e = Ev.timerStart)).drop 1).takeWhile
    fun e => !decide (e = Ev.timerStop)

/-- A platform exposing no acquirable device of either class. -/
def platNone : Platform := ⟨false, false⟩

/-- A platform exposing devices of both classes. -/
def platBoth : Platform := ⟨true, true⟩

/-- A concrete fully functional runtime used to instantiate the theorems. -/
def envGood0 : Env :=
  { platforms := [platBoth]
    contextOk := true
    sourceText := some "kernel void vector_add_ocl"
    createProgramOk := true
    buildErr := none
    queueOk := true
    kernelOk := true
    allocOk1 := true, allocOk2 := true, allocOk3 := true
    writeOk1 := true, writeOk2 := true
    argCode0 := 0, argCode1 := 0, argCode2 := 0, argCode3 := 0
    enqueueOk := true
    readOk := true
    rand := fun n => n }

/-- `envGood0` except that binding kernel argument index 2 fails with an
OpenCL error code (`CL_INVALID_MEM_OBJECT = -38`). -/
def envArgFail : Env :=
  { envGood0 with argCode2 := -38 }

/-- `envGood0` except that allocating the first device buffer fails. -/
def envAllocFail : Env :=
  { envGood0 with allocOk1 := false }

/-- `envGood0` except that context creation fails. -/
def envCtxFail : Env :=
  { envGood0 with contextOk := false }

/-- `envGood0` except that the program build fails with a non-empty build
log. -/
def envCompileFail : Env :=
  { envGood0 with buildErr := some "error: expected expression at line 1" }

/-- A runtime whose first platform exposes no device while the second exposes
both classes. -/
def envTwoPlat : Env :=
  { envGood0 with platforms := [platNone, platBoth] }

/-- Bitwise OR of two...s-complement integers is negative exactly when one of
the operands is: this is why the `err |= ...` accumulation in
`copy_kernel_args` detects a failure of any single binding. -/
theorem intLor_neg_iff (a b : Int) : Int.lor a b < 0 ↔ a < 0 ∨ b < 0 := by
  cases a <;> cases b <;> simp only [Int.lor, Int.negSucc_eq, Int.ofNat_eq_natCast] <;> omega

/-- The accumulated `err` of `copy_kernel_args` is negative exactly when one
of the four `clSetKernelArg` return codes is. -/
theorem copy_kernel_args_err_neg_iff (env : Env) :
    copy_kernel_args_err env < 0 ↔
      env.argCode0 < 0 ∨ env.argCode1 < 0 ∨ env.argCode2 < 0 ∨ env.argCode3 < 0 := by
  unfold copy_kernel_args_err
  rw [intLor_neg_iff, intLor_neg_iff, intLor_neg_iff]
  tauto

/-- `wrapInt32` is the identity on values representable in a 32-bit `int`. -/
theorem wrapInt32_eq_self (x : Int) (h0 : -2147483648 ≤ x) (h1 : x < 2147483648) :
    wrapInt32 x = x := by
  unfold wrapInt32
  rw [Int.emod_eq_of_lt (by omega) (by omega)]
  omega

/-- Casting a valid `int` element count to `size_t` preserves it. -/
theorem sizeT_natCast (N : Nat) (h : (N : Int) < 2147483648) : sizeT (N : Int) = N := by
  unfold sizeT
  rw [Int.emod_eq_of_lt (by omega) (by omega)]
  simp

/-- For a valid `int` element count, an `SZ * sizeof(int)`-byte transfer
covers exactly `SZ` elements. -/
theorem elemsOfSZ_natCast (N : Nat) (h : (N : Int) < 2147483648) :
    elemsOfSZ (N : Int) = N := by
  unfold elemsOfSZ bytesOfSZ
  rw [sizeT_natCast N h]
  have h4 : N * 4 < 18446744073709551616 := by omega
  rw [Nat.mod_eq_of_lt h4]
  omega

/-- On a fully functional runtime the run is exactly the success-path
outcome. -/
theorem runMainSZ_good (SZ : Int) (env : Env) (hg : GoodEnv env) :
    runMainSZ SZ env = successResult SZ env := by
  obtain ⟨⟨hdev, hctx, hsrc, hcp, hbe, hq, hk, herr⟩, ha1, ha2, ha3, hw1, hw2, henq, hrd⟩ := hg
  have hne : ¬ copy_kernel_args_err env < 0 := not_lt.mpr herr
  simp only [runMainSZ, successResult]
  cases hcd : create_device env.platforms with
  | error d =>
    rw [createDeviceOk, hcd] at hdev
    simp at hdev
  | ok dv =>
    cases hso : env.sourceText with
    | none =>
      rw [hso] at hsrc
      simp at hsrc
    | some s =>
      simp [hctx, hcp, hbe, hq, hk, ha1, ha2, ha3, hw1, hw2, henq, hrd, hne, successTrace]

/-- If the pipeline reaches `copy_kernel_args` (all earlier checked stages
succeed) and the accumulated argument-binding error is negative, the run
exits 1 right after the allocation and upload steps, before any enqueue. -/
theorem runMainSZ_argfail (SZ : Int) (env : Env)
    (hdev : createDeviceOk env.platforms = true)
    (hctx : env.contextOk = true)
    (hsrc : env.sourceText.isSome = true)
    (hcp : env.createProgramOk = true)
    (hbe : env.buildErr = none)
    (hq : env.queueOk = true)
    (hk : env.kernelOk = true)
    (herr : copy_kernel_args_err env < 0) :
    (runMainSZ SZ env).exitCode = 1 ∧
    (runMainSZ SZ env).trace =
      [Ev.createContext, Ev.buildProgram, Ev.createQueue, Ev.createKernel,
        Ev.allocBuf 1, Ev.allocBuf 2, Ev.allocBuf 3,
        Ev.uploadBlocking 1, Ev.uploadBlocking 2] := by
  simp only [runMainSZ]
  cases hcd : create_device env.platforms with
  | error d =>
    rw [createDeviceOk, hcd] at hdev
    simp at hdev
  | ok dv =>
    cases hso : env.sourceText with
    | none =>
      rw [hso] at hsrc
      simp at hsrc
    | some s =>
      simp [hctx, hcp, hbe, hq, hk, herr]

/-- Master case analysis of one run: if every stage whose outcome the source
checks succeeds, the run exits 0 with the success trace and no diagnostic
(whatever the unchecked allocation/transfer/enqueue outcomes were); otherwise
the run exits 1 before the kernel is ever enqueued, prints a diagnostic, and
never reaches `free_memory`. -/
theorem runMainSZ_spec (SZ : Int) (env : Env) :
    (CheckedOk env ∧ (runMainSZ SZ env).exitCode = 0 ∧
      (runMainSZ SZ env).trace = successTrace ∧
      hasDiagnostic (runMainSZ SZ env).console = false) ∨
    (¬ CheckedOk env ∧ (runMainSZ SZ env).exitCode = 1 ∧
      Ev.freeMemory ∉ (runMainSZ SZ env).trace ∧
      Ev.enqueueKernel ∉ (runMainSZ SZ env).trace ∧
      hasDiagnostic (runMainSZ SZ env).console = true) := by
  by_cases hC : CheckedOk env
  · left
    obtain ⟨hdev, hctx, hsrc, hcp, hbe, hq, hk, herr⟩ := hC
    have hne : ¬ copy_kernel_args_err env < 0 := not_lt.mpr herr
    refine ⟨⟨hdev, hctx, hsrc, hcp, hbe, hq, hk, herr⟩, ?_⟩
    simp only [runMainSZ]
    cases hcd : create_device env.platforms with
    | error d =>
      rw [createDeviceOk, hcd] at hdev
      simp at hdev
    | ok dv =>
      cases hso : env.sourceText with
      | none =>
        rw [hso] at hsrc
        simp at hsrc
      | some s =>
        simp [hctx, hcp, hbe, hq, hk, hne, successTrace, hasDiagnostic, isDiag]
  · right
    refine ⟨hC, ?_⟩
    simp only [runMainSZ]
    cases hcd : create_device env.platforms with
    | error d => simp [hasDiagnostic, isDiag]
    | ok dv =>
      cases hctx : env.contextOk with
      | false => simp [hasDiagnostic, isDiag]
      | true =>
        cases hso : env.sourceText with
        | none => simp [hasDiagnostic, isDiag]
        | some s =>
          cases hcp : env.createProgramOk with
          | false => simp [hasDiagnostic, isDiag]
          | true =>
            cases hbe : env.buildErr with
            | some log => simp [hasDiagnostic, isDiag]
            | none =>
              cases hq : env.queueOk with
              | false => simp [hasDiagnostic, isDiag]
              | true =>
                cases hk : env.kernelOk with
                | false => simp [hasDiagnostic, isDiag]
                | true =>
                  by_cases herr : copy_kernel_args_err env < 0
                  · simp [herr, hasDiagnostic, isDiag]
                  · exact absurd
                      ⟨by simp [createDeviceOk, hcd], hctx, by simp [hso], hcp,
                        hbe, hq, hk, not_lt.mp herr⟩ hC

/-- C9: the console preview for an array of 20 elements shows exactly the
first 5 values, the ellipsis marker, then the last 5 values; for an array of
10 elements it shows all 10 values. -/
theorem c9_preview_shape (A : Nat → Int) :
    printTokens A 20 =
      [Tok.num (A 0), Tok.num (A 1), Tok.num (A 2), Tok.num (A 3), Tok.num (A 4),
        Tok.ellipsis,
        Tok.num (A 15), Tok.num (A 16), Tok.num (A 17), Tok.num (A 18), Tok.num (A 19)] ∧
    printTokens A 10 =
      [Tok.num (A 0), Tok.num (A 1), Tok.num (A 2), Tok.num (A 3), Tok.num (A 4),
        Tok.num (A 5), Tok.num (A 6), Tok.num (A 7), Tok.num (A 8), Tok.num (A 9)] := by
  constructor <;> rfl

/-- C4 counterexample: with a first platform exposing no acquirable device and
a second platform exposing both classes, some platform exposes a device of
either kind, yet `create_device` fails (and the run exits 1), because the code
only ever asks `clGetPlatformIDs` for one platform. -/
theorem c4_counterexample :
    ((envTwoPlat.platforms.any fun p => p.hasGPU || p.hasCPU) = true) ∧
    create_device envTwoPlat.platforms = Except.error Diag.deviceNotFound ∧
    (runMainSZ 4 envTwoPlat).exitCode = 1 := by
  refine ⟨by decide, by rfl, by decide⟩

/-- C4 (amended): the Device Selector takes the first enumerated platform
(failing if there is none), acquires a GPU-class device from it if one
exists, otherwise falls back to a CPU-class device, and fails only when the
FIRST platform exposes neither class; platforms past the first are never
consulted. -/
theorem c4_amended_selector (plats : List Platform) :
    (plats = [] → create_device plats = Except.error Diag.platformNotFound) ∧
    (∀ p rest, plats = p :: rest →
      ((p.hasGPU = true → create_device plats = Except.ok DevClass.gpu) ∧
        (p.hasGPU = false → p.hasCPU = true →
          create_device plats = Except.ok DevClass.cpu) ∧
        (p.hasGPU = false → p.hasCPU = false →
          create_device plats = Except.error Diag.deviceNotFound))) := by
  constructor
  · rintro rfl
    rfl
  · rintro p rest rfl
    exact ⟨fun hg => by simp [create_device, hg],
      fun hg hc => by simp [create_device, hg, hc],
      fun hg hc => by simp [create_device, hg, hc]⟩

/-- Witness for C4: on a single platform exposing both device classes the
selector picks the GPU. -/
theorem c4_witness : create_device [platBoth] = Except.ok DevClass.gpu :=
  ((c4_amended_selector [platBoth]).2 platBoth [] rfl).1 rfl

/-- C5: if any one of the four `clSetKernelArg` calls fails (returns a
negative code), the process exits with status 1 and the kernel is never
enqueued: the batch of bindings is atomic. -/
theorem c5_atomic_arg_binding (SZ : Int) (env : Env)
    (h : env.argCode0 < 0 ∨ env.argCode1 < 0 ∨ env.argCode2 < 0 ∨ env.argCode3 < 0) :
    (runMainSZ SZ env).exitCode = 1 ∧
      Ev.enqueueKernel ∉ (runMainSZ SZ env).trace := by
  have hnc : ¬ CheckedOk env := by
    rintro ⟨-, -, -, -, -, -, -, herr⟩
    have := (copy_kernel_args_err_neg_iff env).mpr h
    omega
  rcases runMainSZ_spec SZ env with ⟨hC, -⟩ | ⟨-, h1, -, h2, -⟩
  · exact absurd hC hnc
  · exact ⟨h1, h2⟩

/-- Witness for C5: binding of argument index 2 forced to fail with
`CL_INVALID_MEM_OBJECT`. -/
theorem c5_witness :
    (runMainSZ 4 envArgFail).exitCode = 1 ∧
      Ev.enqueueKernel ∉ (runMainSZ 4 envArgFail).trace :=
  c5_atomic_arg_binding 4 envArgFail (by decide)

/-- C3 counterexample: when allocating the first device buffer fails, the run
still exits with status 0 and prints no diagnostic whatsoever — allocation
failure is neither reported nor fatal, contradicting the claim that every
stage failure (including AllocationFailed) is reported and terminates the
process with nonzero status. -/
theorem c3_counterexample :
    envAllocFail.allocOk1 = false ∧
    (runMainSZ 4 envAllocFail).exitCode = 0 ∧
    hasDiagnostic (runMainSZ 4 envAllocFail).console = false := by
  refine ⟨by rfl, by decide, by decide⟩

/-- C3 (amended): the run exits 0 exactly when the stages whose outcome the
source checks (device discovery, context creation, source reading, program
creation, build, queue creation, kernel creation, argument binding) all
succeed; any failure among those is reported with a diagnostic and exits 1.
Allocation, transfer and enqueue failures are not checked: the pipeline
continues past them silently. -/
theorem c3_amended_checked_stages (SZ : Int) (env : Env) :
    ((runMainSZ SZ env).exitCode = 0 ↔ CheckedOk env) ∧
    (¬ CheckedOk env → (runMainSZ SZ env).exitCode = 1 ∧
      hasDiagnostic (runMainSZ SZ env).console = true) := by
  rcases runMainSZ_spec SZ env with ⟨hC, h0, -, -⟩ | ⟨hC, h1, -, -, hd⟩
  · exact ⟨⟨fun _ => hC, fun _ => h0⟩, fun hn => absurd hC hn⟩
  · refine ⟨⟨fun h => ?_, fun h => absurd h hC⟩, fun _ => ⟨h1, hd⟩⟩
    omega

/-- Witness for C3: a context-creation failure is reported and exits 1. -/
theorem c3_witness :
    (runMainSZ 4 envCtxFail).exitCode = 1 ∧
      hasDiagnostic (runMainSZ 4 envCtxFail).console = true :=
  (c3_amended_checked_stages 4 envCtxFail).2 (by decide)

/-- C8 counterexample: when binding kernel argument index 2 fails — a stage
failure occurring after the three device buffers were allocated — the process
exits with status 1 without ever reaching `free_memory`: the buffers (and the
kernel, queue, program, context and host arrays) are not released on this
error path. -/
theorem c8_counterexample :
    Ev.allocBuf 1 ∈ (runMainSZ 4 envArgFail).trace ∧
    Ev.allocBuf 2 ∈ (runMainSZ 4 envArgFail).trace ∧
    Ev.allocBuf 3 ∈ (runMainSZ 4 envArgFail).trace ∧
    (runMainSZ 4 envArgFail).exitCode = 1 ∧
    Ev.freeMemory ∉ (runMainSZ 4 envArgFail).trace := by
  have herr : copy_kernel_args_err envArgFail < 0 :=
    (copy_kernel_args_err_neg_iff envArgFail).mpr (by decide)
  obtain ⟨h1, h2⟩ :=
    runMainSZ_argfail 4 envArgFail (by decide) rfl rfl rfl rfl rfl rfl herr
  rw [h1, h2]
  refine ⟨by decide, by decide, by decide, rfl, by decide⟩

/-- C8 (amended): `free_memory` runs only on the success path — whenever the
trace contains the release, the run exited 0; on a fully functional runtime
the trace is the success trace, in which the buffers are allocated after the
program build, populated (uploaded) before the dispatch, and released after
the result download; error exits never release. -/
theorem c8_amended_release_on_success_only (SZ : Int) (env : Env) :
    (Ev.freeMemory ∈ (runMainSZ SZ env).trace → (runMainSZ SZ env).exitCode = 0) ∧
    (GoodEnv env → (runMainSZ SZ env).trace = successTrace) ∧
    (∃ l1 l2 l3 l4,
      successTrace =
        l1 ++ [Ev.buildProgram] ++ l2 ++
          [Ev.allocBuf 1, Ev.allocBuf 2, Ev.allocBuf 3,
            Ev.uploadBlocking 1, Ev.uploadBlocking 2] ++ l3 ++
          [Ev.enqueueKernel] ++ l4 ++
          [Ev.downloadBlocking, Ev.printOut, Ev.timerStop, Ev.freeMemory]) := by
  refine ⟨?_, ?_, ?_⟩
  · intro hm
    rcases runMainSZ_spec SZ env with ⟨-, h0, -, -⟩ | ⟨-, -, hfm, -, -⟩
    · exact h0
    · exact absurd hm hfm
  · intro hg
    rw [runMainSZ_good SZ env hg]
    rfl
  · exact ⟨[Ev.createContext], [Ev.createQueue, Ev.createKernel],
      [Ev.setArgs, Ev.timerStart], [Ev.waitEvent], by rfl⟩

/-- Witness for C8 (amended): the success run of a fully functional runtime
ends in the release. -/
theorem c8_witness :
    (runMainSZ 4 envGood0).trace = successTrace :=
  (c8_amended_release_on_success_only 4 envGood0).2.1 (by decide)

/-- C7: whenever the program build fails (the pipeline having reached the
build step), the full diagnostic build log supplied by the compiler is
printed and the process exits with status 1; the log is never discarded. -/
theorem c7_build_log_surfaced (SZ : Int) (env : Env) (log : String)
    (hdev : createDeviceOk env.platforms = true)
    (hctx : env.contextOk = true)
    (hsrc : env.sourceText.isSome = true)
    (hcp : env.createProgramOk = true)
    (hbuild : env.buildErr = some log) :
    (runMainSZ SZ env).exitCode = 1 ∧
      ConsoleItem.buildLog log ∈ (runMainSZ SZ env).console := by
  simp only [runMainSZ]
  cases hcd : create_device env.platforms with
  | error d =>
    rw [createDeviceOk, hcd] at hdev
    simp at hdev
  | ok dv =>
    cases hso : env.sourceText with
    | none =>
      rw [hso] at hsrc
      simp at hsrc
    | some s =>
      simp [hctx, hcp, hbuild]

/-- Witness for C7: a failing build with a non-empty log is surfaced in full
before the nonzero exit. -/
theorem c7_witness :
    (runMainSZ 4 envCompileFail).exitCode = 1 ∧
      ConsoleItem.buildLog "error: expected expression at line 1" ∈
        (runMainSZ 4 envCompileFail).console :=
  c7_build_log_surfaced 4 envCompileFail "error: expected expression at line 1"
    (by decide) (by rfl) (by rfl) (by rfl) (by rfl)

/-- C2 counterexample: on a fully functional runtime the blocking download of
the output buffer lies INSIDE the measured span — the timer is stopped only
after `clEnqueueReadBuffer` and the output preview (task.cpp:70-76), so the
measured duration does not exclude the transfer time, contradicting the
claim. -/
theorem c2_counterexample :
    Ev.downloadBlocking ∈ measuredSpan (runMainSZ 4 envGood0).trace := by
  decide

/-- C2 (amended): the measured span runs from just before the kernel enqueue
to just after the blocking download of the output buffer and the printing of
the output preview: it contains exactly the enqueue, the completion wait, the
download and the output print. -/
theorem c2_amended_span (SZ : Int) (env : Env) (hg : GoodEnv env) :
    measuredSpan (runMainSZ SZ env).trace =
      [Ev.enqueueKernel, Ev.waitEvent, Ev.downloadBlocking, Ev.printOut] := by
  rw [runMainSZ_good SZ env hg]
  rfl

/-- Witness for C2 (amended). -/
theorem c2_witness :
    measuredSpan (runMainSZ 4 envGood0).trace =
      [Ev.enqueueKernel, Ev.waitEvent, Ev.downloadBlocking, Ev.printOut] :=
  c2_amended_span 4 envGood0 (by decide)

/-- C6: on a fully functional runtime the two blocking input uploads complete
(in trace order) before the kernel enqueue, and the wait on the completion
event precedes the blocking download of the output buffer: the host never
touches a buffer with a device-side operation outstanding. -/
theorem c6_transfer_ordering (SZ : Int) (env : Env) (hg : GoodEnv env) :
    ∃ pre mid post,
      (runMainSZ SZ env).trace =
        pre ++ [Ev.uploadBlocking 1, Ev.uploadBlocking 2] ++ mid ++
          [Ev.enqueueKernel, Ev.waitEvent, Ev.downloadBlocking] ++ post := by
  rw [runMainSZ_good SZ env hg]
  exact ⟨[Ev.createContext, Ev.buildProgram, Ev.createQueue, Ev.createKernel,
      Ev.allocBuf 1, Ev.allocBuf 2, Ev.allocBuf 3],
    [Ev.setArgs, Ev.timerStart],
    [Ev.printOut, Ev.timerStop, Ev.freeMemory], by rfl⟩

/-- Witness for C6. -/
theorem c6_witness :
    ∃ pre mid post,
      (runMainSZ 4 envGood0).trace =
        pre ++ [Ev.uploadBlocking 1, Ev.uploadBlocking 2] ++ mid ++
          [Ev.enqueueKernel, Ev.waitEvent, Ev.downloadBlocking] ++ post :=
  c6_transfer_ordering 4 envGood0 (by decide)

/-- Every value `init` stores is nonnegative (`rand() % 100`). -/
theorem hostInit_nonneg (r : Nat → Nat) (off sz i : Nat) : 0 ≤ hostInit r off sz i := by
  unfold hostInit
  split <;> positivity

/-- Every value `init` stores is below 100 (`rand() % 100`). -/
theorem hostInit_lt_100 (r : Nat → Nat) (off sz i : Nat) : hostInit r off sz i < 100 := by
  unfold hostInit
  split
  · exact_mod_cast Nat.mod_lt _ (by norm_num)
  · norm_num

/-- C10: the element count used by the whole pipeline is exactly the result of
C `atoi` on the first command-line argument, with no validation anywhere: a
non-numeric argument yields count 0 and a negative argument is accepted as a
negative count, and in both cases the pipeline proceeds all the way through
buffer setup and kernel dispatch, printing no diagnostic and exiting 0. -/
theorem c10_atoi_unvalidated (env : Env) (hg : GoodEnv env) :
    (∀ p a rest, mainSZ (p :: a :: rest) = atoi a) ∧
    atoi "abc" = 0 ∧
    atoi "-5" = -5 ∧
    ((runMain ["a.out", "abc"] env).exitCode = 0 ∧
      hasDiagnostic (runMain ["a.out", "abc"] env).console = false ∧
      Ev.enqueueKernel ∈ (runMain ["a.out", "abc"] env).trace) ∧
    ((runMain ["a.out", "-5"] env).exitCode = 0 ∧
      hasDiagnostic (runMain ["a.out", "-5"] env).console = false ∧
      Ev.enqueueKernel ∈ (runMain ["a.out", "-5"] env).trace) := by
  obtain ⟨hC, -⟩ := hg
  have run : ∀ argv : List String,
      (runMain argv env).exitCode = 0 ∧
        hasDiagnostic (runMain argv env).console = false ∧
        Ev.enqueueKernel ∈ (runMain argv env).trace := by
    intro argv
    unfold runMain
    rcases runMainSZ_spec (mainSZ argv) env with ⟨-, h0, htr, hdg⟩ | ⟨hn, -⟩
    · refine ⟨h0, hdg, ?_⟩
      rw [htr]
      decide
    · exact absurd hC hn
  exact ⟨fun p a rest => rfl, by rfl, by rfl, run _, run _⟩

/-- Witness for C10. -/
theorem c10_witness :
    atoi "abc" = 0 ∧ (runMain ["a.out", "abc"] envGood0).exitCode = 0 :=
  ⟨(c10_atoi_unvalidated envGood0 (by decide)).2.1,
    (c10_atoi_unvalidated envGood0 (by decide)).2.2.2.1.1⟩

/-- C1: for every valid element count `N ≥ 1` (representable in the C `int`
that holds `SZ`), after the pipeline runs on a fully functional runtime —
blocking uploads of the two `init`-filled input arrays, kernel enqueue over a
1-D work domain of extent `N`, completion wait, blocking download — the host
output array at every index `i < N` equals the sum of input array `v1` at `i`
and input array `v2` at `i`. -/
theorem c1_output_is_elementwise_sum (N : Nat) (env : Env)
    (h1 : 1 ≤ N) (h2 : (N : Int) < 2147483648) (hg : GoodEnv env) :
    ∀ i, i < N →
      (runMainSZ (N : Int) env).vout i =
        hostInit env.rand 0 N i + hostInit env.rand N N i := by
  intro i hi
  rw [runMainSZ_good _ _ hg]
  have hb1 := hostInit_nonneg env.rand 0 N i
  have hb2 := hostInit_lt_100 env.rand 0 N i
  have hb3 := hostInit_nonneg env.rand N N i
  have hb4 := hostInit_lt_100 env.rand N N i
  simp only [successResult, vector_add_ocl, elemsOfSZ_natCast N h2, sizeT_natCast N h2,
    Int.toNat_natCast, if_pos hi]
  exact wrapInt32_eq_self _ (by omega) (by omega)

/-- Witness for C1: a concrete three-element run. -/
theorem c1_witness :
    (runMainSZ ((3 : Nat) : Int) envGood0).vout 1 =
      hostInit envGood0.rand 0 3 1 + hostInit envGood0.rand 3 3 1 :=
  c1_output_is_elementwise_sum 3 envGood0 (by decide) (by decide) (by decide) 1 (by decide)

/-- Witness for C9: the preview shape at the identity-valued array. -/
theorem c9_witness :
    printTokens (fun i => (i : Int)) 20 =
      [Tok.num 0, Tok.num 1, Tok.num 2, Tok.num 3, Tok.num 4, Tok.ellipsis,
        Tok.num 15, Tok.num 16, Tok.num 17, Tok.num 18, Tok.num 19] :=
  (c9_preview_shape (fun i => (i : Int))).1
